import Mathlib

/-!
Verification of the grid-overlay core: the grid transform configuration
(grid-config.js), the dual-target grid rasterizer (grid-renderer.js) and the
gesture interpreter (gestures.js).

Modelling conventions.
JS numbers are embedded as real numbers; JS integers used as identifiers and
counts are embedded as integers or naturals.  Math.round in JS rounds ties
toward positive infinity, which is exactly the Mathlib function round
(round x = the floor of x + 1/2).  The observable effect of the private
notify method (one synchronous dispatch to every listener) is modelled by a
counter field notifications on the configuration, incremented once per
notify call; claims about notification counts are stated against it.
-/

noncomputable section

/-- State of GridConfiguration (grid-config.js, backing fields), plus a
counter of notify dispatches standing for the observable listener
notifications. -/
structure GridConfiguration where
  gridN : ℤ
  cellSize : ℝ
  rotation : ℝ
  positionX : ℝ
  positionY : ℝ
  lineColor : String
  lineWidth : ℝ
  lineOpacity : ℝ
  notifications : ℕ

/-- The initial backing-field values of a freshly constructed
GridConfiguration. -/
def GridConfiguration.initial : GridConfiguration :=
  { gridN := 4
    cellSize := 60
    rotation := 0
    positionX := 0
    positionY := 0
    lineColor := "#00ff00"
    lineWidth := 1.5
    lineOpacity := 0.8
    notifications := 0 }

/-- The private notify method: dispatches to every listener once.  Modelled
as incrementing the notification counter. -/
def GridConfiguration.notify (c : GridConfiguration) : GridConfiguration :=
  { c with notifications := c.notifications + 1 }

/-- Setter for gridN: stores max(1, min(128, Math.round(v))) and notifies. -/
def GridConfiguration.setGridN (c : GridConfiguration) (v : ℝ) : GridConfiguration :=
  GridConfiguration.notify { c with gridN := max 1 (min 128 (round v)) }

/-- Derived getter effectiveN = Math.max(1, gridN). -/
def GridConfiguration.effectiveN (c : GridConfiguration) : ℤ :=
  max 1 c.gridN

/-- Setter for cellSize: stores max(10, min(400, v)) and notifies. -/
def GridConfiguration.setCellSize (c : GridConfiguration) (v : ℝ) : GridConfiguration :=
  GridConfiguration.notify { c with cellSize := max 10 (min 400 v) }

/-- Derived getter totalGridSize = effectiveN * cellSize. -/
def GridConfiguration.totalGridSize (c : GridConfiguration) : ℝ :=
  (c.effectiveN : ℝ) * c.cellSize

/-- Setter for rotation: stores max(-180, min(180, v)) and notifies. -/
def GridConfiguration.setRotation (c : GridConfiguration) (v : ℝ) : GridConfiguration :=
  GridConfiguration.notify { c with rotation := max (-180) (min 180 v) }

/-- Setter for positionX: stores v unclamped and notifies. -/
def GridConfiguration.setPositionX (c : GridConfiguration) (v : ℝ) : GridConfiguration :=
  GridConfiguration.notify { c with positionX := v }

/-- Setter for positionY: stores v unclamped and notifies. -/
def GridConfiguration.setPositionY (c : GridConfiguration) (v : ℝ) : GridConfiguration :=
  GridConfiguration.notify { c with positionY := v }

/-- Setter for lineColor: unvalidated pass-through, notifies. -/
def GridConfiguration.setLineColor (c : GridConfiguration) (v : String) : GridConfiguration :=
  GridConfiguration.notify { c with lineColor := v }

/-- Setter for lineWidth: stores max(0.5, min(5, v)) and notifies. -/
def GridConfiguration.setLineWidth (c : GridConfiguration) (v : ℝ) : GridConfiguration :=
  GridConfiguration.notify { c with lineWidth := max 0.5 (min 5 v) }

/-- Setter for lineOpacity: stores max(0.1, min(1, v)) and notifies. -/
def GridConfiguration.setLineOpacity (c : GridConfiguration) (v : ℝ) : GridConfiguration :=
  GridConfiguration.notify { c with lineOpacity := max 0.1 (min 1 v) }

/-- centerGrid(): writes 0 to both position backing fields directly, then
notifies once. -/
def GridConfiguration.centerGrid (c : GridConfiguration) : GridConfiguration :=
  GridConfiguration.notify { c with positionX := 0, positionY := 0 }

/-- One entry of the mapping passed to the batch update method, i.e. one
key-value pair of Object.entries(props), classified by how the key resolves
on the object.  The first eight constructors are the writable accessor
properties (the configuration fields).  effectiveNKey and totalGridSizeKey
are the getter-only derived properties: the key test (key in this) accepts
them, and the subsequent assignment to an accessor without a setter throws a
TypeError because modules run in strict mode.  unknownKey stands for any key
that does not resolve on the object and is skipped by the key test. -/
inductive FieldAssign where
  | gridN (v : ℝ)
  | cellSize (v : ℝ)
  | rotation (v : ℝ)
  | positionX (v : ℝ)
  | positionY (v : ℝ)
  | lineColor (s : String)
  | lineWidth (v : ℝ)
  | lineOpacity (v : ℝ)
  | effectiveNKey (v : ℝ)
  | totalGridSizeKey (v : ℝ)
  | unknownKey (k : String)

/-- True exactly on the eight writable configuration fields. -/
def FieldAssign.isField : FieldAssign → Bool
  | .gridN _ => true
  | .cellSize _ => true
  | .rotation _ => true
  | .positionX _ => true
  | .positionY _ => true
  | .lineColor _ => true
  | .lineWidth _ => true
  | .lineOpacity _ => true
  | .effectiveNKey _ => false
  | .totalGridSizeKey _ => false
  | .unknownKey _ => false

/-- The body of one loop iteration of the batch update: the key test
followed by the property assignment.  Returns none when the assignment
throws (getter-only property, strict mode). -/
def GridConfiguration.applyAssign (c : GridConfiguration) :
    FieldAssign → Option GridConfiguration
  | .gridN v => some (c.setGridN v)
  | .cellSize v => some (c.setCellSize v)
  | .rotation v => some (c.setRotation v)
  | .positionX v => some (c.setPositionX v)
  | .positionY v => some (c.setPositionY v)
  | .lineColor s => some (c.setLineColor s)
  | .lineWidth v => some (c.setLineWidth v)
  | .lineOpacity v => some (c.setLineOpacity v)
  | .effectiveNKey _ => none
  | .totalGridSizeKey _ => none
  | .unknownKey _ => some c

/-- The batch update method: iterates over the entries in order, assigning
through the setters.  The Bool records whether a TypeError escaped; when it
did, the entries before the throwing one have already been applied and the
remaining ones are not processed. -/
def GridConfiguration.update (c : GridConfiguration) :
    List FieldAssign → GridConfiguration × Bool
  | [] => (c, false)
  | a :: rest =>
    match GridConfiguration.applyAssign c a with
    | some c1 => GridConfiguration.update c1 rest
    | none => (c, true)

/-- Dispatch of one entry to the corresponding individual setter, used to
state that the batch update agrees with setter-by-setter assignment.  On the
non-field constructors (which the batch comparison claims exclude) it keeps
the configuration. -/
def GridConfiguration.applySetter (c : GridConfiguration) :
    FieldAssign → GridConfiguration
  | .gridN v => c.setGridN v
  | .cellSize v => c.setCellSize v
  | .rotation v => c.setRotation v
  | .positionX v => c.setPositionX v
  | .positionY v => c.setPositionY v
  | .lineColor s => c.setLineColor s
  | .lineWidth v => c.setLineWidth v
  | .lineOpacity v => c.setLineOpacity v
  | .effectiveNKey _ => c
  | .totalGridSizeKey _ => c
  | .unknownKey _ => c

/-- The public mutating operations of GridConfiguration. -/
inductive ConfigOp where
  | setGridN (v : ℝ)
  | setCellSize (v : ℝ)
  | setRotation (v : ℝ)
  | setPositionX (v : ℝ)
  | setPositionY (v : ℝ)
  | setLineColor (s : String)
  | setLineWidth (v : ℝ)
  | setLineOpacity (v : ℝ)
  | centerGrid
  | update (props : List FieldAssign)

/-- Interpretation of one public operation on the configuration. -/
def GridConfiguration.applyOp (c : GridConfiguration) : ConfigOp → GridConfiguration
  | .setGridN v => c.setGridN v
  | .setCellSize v => c.setCellSize v
  | .setRotation v => c.setRotation v
  | .setPositionX v => c.setPositionX v
  | .setPositionY v => c.setPositionY v
  | .setLineColor s => c.setLineColor s
  | .setLineWidth v => c.setLineWidth v
  | .setLineOpacity v => c.setLineOpacity v
  | .centerGrid => c.centerGrid
  | .update props => (c.update props).1

/-- The range invariant of the clamped fields, together with the derived
guarantee that effectiveN is at least 1. -/
def GridConfiguration.Inv (c : GridConfiguration) : Prop :=
  1 ≤ c.gridN ∧ c.gridN ≤ 128 ∧
  (10 : ℝ) ≤ c.cellSize ∧ c.cellSize ≤ 400 ∧
  (-180 : ℝ) ≤ c.rotation ∧ c.rotation ≤ 180 ∧
  (0.5 : ℝ) ≤ c.lineWidth ∧ c.lineWidth ≤ 5 ∧
  (0.1 : ℝ) ≤ c.lineOpacity ∧ c.lineOpacity ≤ 1 ∧
  1 ≤ c.effectiveN

/-- One touch contact of a touch event: stable identifier plus client
coordinates. -/
structure Touch where
  identifier : ℤ
  clientX : ℝ
  clientY : ℝ

/-- The private dist helper of Gestures: Math.sqrt(dx*dx + dy*dy) of the
client-coordinate differences. -/
def Gestures.dist (a b : Touch) : ℝ :=
  Real.sqrt ((a.clientX - b.clientX) * (a.clientX - b.clientX) +
    (a.clientY - b.clientY) * (a.clientY - b.clientY))

/-- The private angle helper of Gestures: Math.atan2(by - ay, bx - ax).
Math.atan2 y x is the argument of the complex number x + i y, valued in the
half-open interval from -pi exclusive to pi inclusive, with atan2 0 0 = 0;
this is exactly Complex.arg applied to the complex number with real part
bx - ax and imaginary part by - ay.  (Floating-point signed zero, on which
JS atan2 can return -pi, has no counterpart in the real-number model.) -/
def Gestures.angle (a b : Touch) : ℝ :=
  Complex.arg ⟨b.clientX - a.clientX, b.clientY - a.clientY⟩

/-- The gesture-local state of Gestures (gestures.js backing fields): drag
anchor and two-touch pinch and rotate anchor. -/
structure GestureState where
  dragging : Bool
  dragStartX : ℝ
  dragStartY : ℝ
  configStartX : ℝ
  configStartY : ℝ
  touchIds : List ℤ
  initialPinchDist : ℝ
  initialCellSize : ℝ
  initialAngle : ℝ
  initialRotation : ℝ

/-- The initial gesture state of a freshly constructed Gestures object. -/
def GestureState.initial : GestureState :=
  { dragging := false
    dragStartX := 0
    dragStartY := 0
    configStartX := 0
    configStartY := 0
    touchIds := []
    initialPinchDist := 0
    initialCellSize := 0
    initialAngle := 0
    initialRotation := 0 }

/-- A pointer event as consumed by the drag handlers: the pointer-kind
discriminator and the client coordinates. -/
structure PointerEvent where
  pointerType : String
  clientX : ℝ
  clientY : ℝ

/-- Pointer-down handler: ignored for touch pointers; otherwise starts a
drag, anchoring the pointer coordinates and the current configuration
position.  (setPointerCapture is a host-environment call with no effect on
the modelled state.) -/
def Gestures.onPointerDown (g : GestureState) (c : GridConfiguration)
    (e : PointerEvent) : GestureState :=
  if e.pointerType = "touch" then g
  else
    { g with dragging := true
             dragStartX := e.clientX
             dragStartY := e.clientY
             configStartX := c.positionX
             configStartY := c.positionY }

/-- Pointer-move handler: while dragging, assigns position absolutely from
the anchor plus the delta of the pointer coordinates from the anchored
pointer coordinates; a no-op otherwise.  The gesture state is not written by
this handler. -/
def Gestures.onPointerMove (g : GestureState) (c : GridConfiguration)
    (e : PointerEvent) : GridConfiguration :=
  if g.dragging = false then c
  else
    ((c.setPositionX (g.configStartX + (e.clientX - g.dragStartX))).setPositionY
      (g.configStartY + (e.clientY - g.dragStartY)))

/-- Pointer-up handler: ends the drag; a no-op when not dragging. -/
def Gestures.onPointerUp (g : GestureState) : GestureState :=
  if g.dragging = false then g else { g with dragging := false }

/-- The private findTouch helper: linear search of the touch list for the
given identifier.  The source indexes touchIds with plain array access, so
an out-of-range index yields undefined and the search then finds nothing;
the Option argument models that. -/
def findTouch (list : List Touch) : Option ℤ → Option Touch
  | none => none
  | some i => list.find? (fun t => t.identifier == i)

/-- Touch-start handler: when the event carries exactly two contacts,
records both identifiers and anchors the inter-contact distance and angle
and the current cellSize and rotation; otherwise does nothing.  (The source
tests e.touches.length === 2 and then reads e.touches 0 and 1; matching on
the two-element list is the same test.) -/
def Gestures.onTouchStart (g : GestureState) (c : GridConfiguration)
    (touches : List Touch) : GestureState :=
  match touches with
  | [t0, t1] =>
    { g with touchIds := [t0.identifier, t1.identifier]
             initialPinchDist := Gestures.dist t0 t1
             initialCellSize := c.cellSize
             initialAngle := Gestures.angle t0 t1
             initialRotation := c.rotation }
  | _ => g

/-- Touch-move handler: ignored unless the event carries exactly two
contacts and both anchored identifiers are found among them; then sets
cellSize to initialCellSize times the distance ratio (guarded by
initialPinchDist > 0) and rotation to initialRotation plus the angle delta
converted to degrees, both through the clamping setters.  The gesture state
is not written by this handler. -/
def Gestures.onTouchMove (g : GestureState) (c : GridConfiguration)
    (touches : List Touch) : GridConfiguration :=
  if touches.length ≠ 2 then c
  else
    match findTouch touches g.touchIds[0]?, findTouch touches g.touchIds[1]? with
    | some t0, some t1 =>
      let c1 :=
        if 0 < g.initialPinchDist then
          c.setCellSize (g.initialCellSize * (Gestures.dist t0 t1 / g.initialPinchDist))
        else c
      c1.setRotation (g.initialRotation + (Gestures.angle t0 t1 - g.initialAngle) * (180 / Real.pi))
    | _, _ => c

/-- Touch-end handler: unconditionally clears the anchored identifiers. -/
def Gestures.onTouchEnd (g : GestureState) : GestureState :=
  { g with touchIds := [] }

/-- Wheel handler: with the ctrl modifier held, incrementally adjusts
cellSize by -deltaY * 0.5 through the clamping setter. -/
def Gestures.onWheel (c : GridConfiguration) (deltaY : ℝ) (ctrlKey : Bool) :
    GridConfiguration :=
  if ctrlKey then c.setCellSize (c.cellSize + (-deltaY * 0.5)) else c

/-- A touch event as dispatched to the touch handlers, carrying the list of
currently active contacts. -/
inductive TouchEv where
  | start (touches : List Touch)
  | move (touches : List Touch)
  | stop (touches : List Touch)

/-- One step of the touch gesture state machine: dispatches the event to
the corresponding handler of Gestures. -/
def touchStep (s : GestureState × GridConfiguration) : TouchEv → GestureState × GridConfiguration
  | .start ts => (Gestures.onTouchStart s.1 s.2 ts, s.2)
  | .move ts => (s.1, Gestures.onTouchMove s.1 s.2 ts)
  | .stop _ => (Gestures.onTouchEnd s.1, s.2)

/-- Runs a sequence of touch events through the gesture state machine. -/
def runTouch (s : GestureState × GridConfiguration) (evs : List TouchEv) :
    GestureState × GridConfiguration :=
  evs.foldl touchStep s

/-- One 2D canvas context command, in the order and with the arguments the
renderer issues them. -/
inductive CanvasOp where
  | save
  | restore
  | clearRect (x y w h : ℝ)
  | translate (x y : ℝ)
  | rotate (t : ℝ)
  | strokeStyle (c : String)
  | lineWidth (w : ℝ)
  | globalAlpha (a : ℝ)
  | beginPath
  | moveTo (x y : ℝ)
  | lineTo (x y : ℝ)
  | stroke

/-- A 2D affine transform in canvas matrix form (a b c d e f): a point
(x, y) maps to (a x + c y + e, b x + d y + f). -/
structure Affine where
  a : ℝ
  b : ℝ
  c : ℝ
  d : ℝ
  e : ℝ
  f : ℝ

/-- The identity transform. -/
def Affine.identity : Affine := ⟨1, 0, 0, 1, 0, 0⟩

/-- Applies the transform to a point. -/
def Affine.apply (m : Affine) (p : ℝ × ℝ) : ℝ × ℝ :=
  (m.a * p.1 + m.c * p.2 + m.e, m.b * p.1 + m.d * p.2 + m.f)

/-- Matrix composition: the composite maps p to m.apply (n.apply p), which
is how the canvas multiplies an incoming transform onto the current one. -/
def Affine.comp (m n : Affine) : Affine :=
  ⟨m.a * n.a + m.c * n.b, m.b * n.a + m.d * n.b,
   m.a * n.c + m.c * n.d, m.b * n.c + m.d * n.d,
   m.a * n.e + m.c * n.f + m.e, m.b * n.e + m.d * n.f + m.f⟩

/-- The canvas translate matrix. -/
def Affine.translationBy (x y : ℝ) : Affine := ⟨1, 0, 0, 1, x, y⟩

/-- The canvas rotate matrix for an angle in radians. -/
def Affine.rotationBy (t : ℝ) : Affine :=
  ⟨Real.cos t, Real.sin t, -Real.sin t, Real.cos t, 0, 0⟩

/-- The geometric state of a 2D canvas context: current transform, the
save/restore stack, the current path point, the segments of the current
path (recorded in device space, as the canvas transforms path coordinates
at the time each path command executes), and the stroked output segments. -/
structure CtxState where
  ctm : Affine
  stack : List Affine
  cur : Option (ℝ × ℝ)
  path : List ((ℝ × ℝ) × (ℝ × ℝ))
  out : List ((ℝ × ℝ) × (ℝ × ℝ))

/-- A fresh context: identity transform, empty stack, no path. -/
def CtxState.initial : CtxState := ⟨Affine.identity, [], none, [], []⟩

/-- Canvas 2D semantics of one command, restricted to stroke geometry:
style commands do not affect it, clearRect erases pixels but no geometry,
save/restore push and pop the transform, moveTo/lineTo build the current
path through the current transform, stroke emits the path. -/
def step (s : CtxState) : CanvasOp → CtxState
  | .save => { s with stack := s.ctm :: s.stack }
  | .restore =>
    match s.stack with
    | [] => s
    | m :: rest => { s with ctm := m, stack := rest }
  | .clearRect _ _ _ _ => s
  | .translate x y => { s with ctm := s.ctm.comp (Affine.translationBy x y) }
  | .rotate t => { s with ctm := s.ctm.comp (Affine.rotationBy t) }
  | .strokeStyle _ => s
  | .lineWidth _ => s
  | .globalAlpha _ => s
  | .beginPath => { s with cur := none, path := [] }
  | .moveTo x y => { s with cur := some (s.ctm.apply (x, y)) }
  | .lineTo x y =>
    match s.cur with
    | some q =>
      { s with cur := some (s.ctm.apply (x, y)),
               path := s.path ++ [(q, s.ctm.apply (x, y))] }
    | none => { s with cur := some (s.ctm.apply (x, y)) }
  | .stroke => { s with out := s.out ++ s.path }

/-- The stroke geometry (device-space segments) produced by running a
command sequence on a fresh context. -/
def strokedSegments (ops : List CanvasOp) : List ((ℝ × ℝ) × (ℝ × ℝ)) :=
  (ops.foldl step CtxState.initial).out

/-- The command sequence issued by the drawTo method of GridRenderer for a
given configuration and target dimensions: translate to center plus offset,
rotate, translate so the grid is centered, set styles, then one polyline
pass with effectiveN + 1 vertical and effectiveN + 1 horizontal lines,
stroke and restore. -/
def GridRenderer.drawToOps (cfg : GridConfiguration) (width height : ℝ) : List CanvasOp :=
  let n := cfg.effectiveN.toNat
  let cell := cfg.cellSize
  let total := (n : ℝ) * cell
  let rot := cfg.rotation * Real.pi / 180
  [CanvasOp.save,
   CanvasOp.translate (width / 2 + cfg.positionX) (height / 2 + cfg.positionY),
   CanvasOp.rotate rot,
   CanvasOp.translate (-(total / 2)) (-(total / 2)),
   CanvasOp.strokeStyle cfg.lineColor,
   CanvasOp.lineWidth cfg.lineWidth,
   CanvasOp.globalAlpha cfg.lineOpacity,
   CanvasOp.beginPath] ++
  ((List.range (n + 1)).flatMap fun i =>
    [CanvasOp.moveTo ((i : ℝ) * cell) 0, CanvasOp.lineTo ((i : ℝ) * cell) total]) ++
  ((List.range (n + 1)).flatMap fun i =>
    [CanvasOp.moveTo 0 ((i : ℝ) * cell), CanvasOp.lineTo total ((i : ℝ) * cell)]) ++
  [CanvasOp.stroke, CanvasOp.restore]

/-- drawTo as invoked on a target context: the method only issues commands
into the context it is handed, so it is modelled as appending its command
sequence to the context's command log.  It reads nothing from the
context. -/
def GridRenderer.drawTo (ctx : List CanvasOp) (cfg : GridConfiguration)
    (width height : ℝ) : List CanvasOp :=
  ctx ++ GridRenderer.drawToOps cfg width height

/-- The command sequence issued by the private draw method of GridRenderer
(the live render path) at the canvas client dimensions: clearRect over the
client box, then the same transform, style and polyline sequence. -/
def GridRenderer.drawOps (cfg : GridConfiguration) (clientW clientH : ℝ) : List CanvasOp :=
  let n := cfg.effectiveN.toNat
  let cell := cfg.cellSize
  let total := (n : ℝ) * cell
  let rot := cfg.rotation * Real.pi / 180
  [CanvasOp.clearRect 0 0 clientW clientH,
   CanvasOp.save,
   CanvasOp.translate (clientW / 2 + cfg.positionX) (clientH / 2 + cfg.positionY),
   CanvasOp.rotate rot,
   CanvasOp.translate (-(total / 2)) (-(total / 2)),
   CanvasOp.strokeStyle cfg.lineColor,
   CanvasOp.lineWidth cfg.lineWidth,
   CanvasOp.globalAlpha cfg.lineOpacity,
   CanvasOp.beginPath] ++
  ((List.range (n + 1)).flatMap fun i =>
    [CanvasOp.moveTo ((i : ℝ) * cell) 0, CanvasOp.lineTo ((i : ℝ) * cell) total]) ++
  ((List.range (n + 1)).flatMap fun i =>
    [CanvasOp.moveTo 0 ((i : ℝ) * cell), CanvasOp.lineTo total ((i : ℝ) * cell)]) ++
  [CanvasOp.stroke, CanvasOp.restore]

/-- The grid frame as worded by the specification: translate to the target
center plus the position offset, rotate by rotation times pi over 180, then
translate by minus half the total grid size in each axis.  Written from the
claim text, to be compared with the semantics of the emitted commands. -/
def specFrame (cfg : GridConfiguration) (width height : ℝ) : Affine :=
  ((Affine.translationBy (width / 2 + cfg.positionX) (height / 2 + cfg.positionY)).comp
    (Affine.rotationBy (cfg.rotation * Real.pi / 180))).comp
    (Affine.translationBy (-((cfg.effectiveN.toNat : ℝ) * cfg.cellSize / 2))
      (-((cfg.effectiveN.toNat : ℝ) * cfg.cellSize / 2)))

lemma GridConfiguration.Inv_initial : GridConfiguration.Inv GridConfiguration.initial := by
  refine ⟨?_, ?_, ?_, ?_, ?_, ?_, ?_, ?_, ?_, ?_, ?_⟩ <;>
    simp [GridConfiguration.initial, GridConfiguration.effectiveN] <;> norm_num

lemma GridConfiguration.Inv_setGridN (c : GridConfiguration) (v : ℝ)
    (h : GridConfiguration.Inv c) : GridConfiguration.Inv (c.setGridN v) := by
  obtain ⟨_, _, h3, h4, h5, h6, h7, h8, h9, h10, _⟩ := h
  refine ⟨le_max_left _ _, max_le (by norm_num) (min_le_left _ _),
    h3, h4, h5, h6, h7, h8, h9, h10, le_max_left _ _⟩

lemma GridConfiguration.Inv_setCellSize (c : GridConfiguration) (v : ℝ)
    (h : GridConfiguration.Inv c) : GridConfiguration.Inv (c.setCellSize v) := by
  obtain ⟨h1, h2, _, _, h5, h6, h7, h8, h9, h10, h11⟩ := h
  exact ⟨h1, h2, le_max_left _ _, max_le (by norm_num) (min_le_left _ _),
    h5, h6, h7, h8, h9, h10, h11⟩

lemma GridConfiguration.Inv_setRotation (c : GridConfiguration) (v : ℝ)
    (h : GridConfiguration.Inv c) : GridConfiguration.Inv (c.setRotation v) := by
  obtain ⟨h1, h2, h3, h4, _, _, h7, h8, h9, h10, h11⟩ := h
  exact ⟨h1, h2, h3, h4, le_max_left _ _, max_le (by norm_num) (min_le_left _ _),
    h7, h8, h9, h10, h11⟩

lemma GridConfiguration.Inv_setPositionX (c : GridConfiguration) (v : ℝ)
    (h : GridConfiguration.Inv c) : GridConfiguration.Inv (c.setPositionX v) := h

lemma GridConfiguration.Inv_setPositionY (c : GridConfiguration) (v : ℝ)
    (h : GridConfiguration.Inv c) : GridConfiguration.Inv (c.setPositionY v) := h

lemma GridConfiguration.Inv_setLineColor (c : GridConfiguration) (s : String)
    (h : GridConfiguration.Inv c) : GridConfiguration.Inv (c.setLineColor s) := h

lemma GridConfiguration.Inv_setLineWidth (c : GridConfiguration) (v : ℝ)
    (h : GridConfiguration.Inv c) : GridConfiguration.Inv (c.setLineWidth v) := by
  obtain ⟨h1, h2, h3, h4, h5, h6, _, _, h9, h10, h11⟩ := h
  exact ⟨h1, h2, h3, h4, h5, h6, le_max_left _ _, max_le (by norm_num) (min_le_left _ _),
    h9, h10, h11⟩

lemma GridConfiguration.Inv_setLineOpacity (c : GridConfiguration) (v : ℝ)
    (h : GridConfiguration.Inv c) : GridConfiguration.Inv (c.setLineOpacity v) := by
  obtain ⟨h1, h2, h3, h4, h5, h6, h7, h8, _, _, h11⟩ := h
  exact ⟨h1, h2, h3, h4, h5, h6, h7, h8, le_max_left _ _, max_le (by norm_num) (min_le_left _ _),
    h11⟩

lemma GridConfiguration.Inv_centerGrid (c : GridConfiguration)
    (h : GridConfiguration.Inv c) : GridConfiguration.Inv c.centerGrid := h

lemma GridConfiguration.Inv_update (props : List FieldAssign) :
    ∀ c : GridConfiguration, GridConfiguration.Inv c →
      GridConfiguration.Inv (c.update props).1 := by
  induction props with
  | nil => intro c h; exact h
  | cons a rest ih =>
    intro c h
    cases a with
    | gridN v => exact ih _ (GridConfiguration.Inv_setGridN c v h)
    | cellSize v => exact ih _ (GridConfiguration.Inv_setCellSize c v h)
    | rotation v => exact ih _ (GridConfiguration.Inv_setRotation c v h)
    | positionX v => exact ih _ (GridConfiguration.Inv_setPositionX c v h)
    | positionY v => exact ih _ (GridConfiguration.Inv_setPositionY c v h)
    | lineColor s => exact ih _ (GridConfiguration.Inv_setLineColor c s h)
    | lineWidth v => exact ih _ (GridConfiguration.Inv_setLineWidth c v h)
    | lineOpacity v => exact ih _ (GridConfiguration.Inv_setLineOpacity c v h)
    | effectiveNKey v => exact h
    | totalGridSizeKey v => exact h
    | unknownKey k => exact ih _ h

lemma GridConfiguration.Inv_applyOp (c : GridConfiguration) (op : ConfigOp)
    (h : GridConfiguration.Inv c) : GridConfiguration.Inv (c.applyOp op) := by
  cases op with
  | setGridN v => exact GridConfiguration.Inv_setGridN c v h
  | setCellSize v => exact GridConfiguration.Inv_setCellSize c v h
  | setRotation v => exact GridConfiguration.Inv_setRotation c v h
  | setPositionX v => exact GridConfiguration.Inv_setPositionX c v h
  | setPositionY v => exact GridConfiguration.Inv_setPositionY c v h
  | setLineColor s => exact GridConfiguration.Inv_setLineColor c s h
  | setLineWidth v => exact GridConfiguration.Inv_setLineWidth c v h
  | setLineOpacity v => exact GridConfiguration.Inv_setLineOpacity c v h
  | centerGrid => exact GridConfiguration.Inv_centerGrid c h
  | update props => exact GridConfiguration.Inv_update props c h

lemma FieldAssign.applyAssign_isField (c : GridConfiguration) (a : FieldAssign)
    (ha : a.isField = true) :
    GridConfiguration.applyAssign c a = some (GridConfiguration.applySetter c a) ∧
    (GridConfiguration.applySetter c a).notifications = c.notifications + 1 := by
  cases a <;> first
    | exact ⟨rfl, rfl⟩
    | simp [FieldAssign.isField] at ha

lemma GridConfiguration.update_fields_spec (props : List FieldAssign) :
    ∀ c : GridConfiguration, (∀ a ∈ props, a.isField = true) →
      (c.update props).1 = props.foldl GridConfiguration.applySetter c ∧
      (c.update props).2 = false ∧
      (c.update props).1.notifications = c.notifications + props.length := by
  induction props with
  | nil => intro c _; exact ⟨rfl, rfl, by simp [GridConfiguration.update]⟩
  | cons a rest ih =>
    intro c h
    have ha : a.isField = true := h a (List.mem_cons_self a rest)
    have hrest : ∀ x ∈ rest, x.isField = true := fun x hx => h x (List.mem_cons_of_mem a hx)
    obtain ⟨heq, hnot⟩ := FieldAssign.applyAssign_isField c a ha
    obtain ⟨h1, h2, h3⟩ := ih (GridConfiguration.applySetter c a) hrest
    have hu : GridConfiguration.update c (a :: rest) =
        GridConfiguration.update (GridConfiguration.applySetter c a) rest := by
      simp only [GridConfiguration.update, heq]
    rw [hu, List.foldl_cons, List.length_cons]
    exact ⟨h1, h2, by rw [h3, hnot]; omega⟩

lemma Affine.identity_comp (m : Affine) : Affine.identity.comp m = m := by
  cases m
  simp [Affine.comp, Affine.identity]

lemma step_restore_out (s : CtxState) : (step s CanvasOp.restore).out = s.out := by
  unfold step
  cases hs : s.stack <;> rfl

lemma foldl_step_vlines (cell total : ℝ) (l : List ℕ) :
    ∀ (M : Affine) (stk : List Affine) (cur0 : Option (ℝ × ℝ))
      (path0 out0 : List ((ℝ × ℝ) × (ℝ × ℝ))), ∃ c : Option (ℝ × ℝ),
      List.foldl step ⟨M, stk, cur0, path0, out0⟩ (l.flatMap fun i =>
        [CanvasOp.moveTo ((i : ℝ) * cell) 0, CanvasOp.lineTo ((i : ℝ) * cell) total]) =
      ⟨M, stk, c,
       path0 ++ l.map (fun (i : ℕ) => (M.apply ((i : ℝ) * cell, 0), M.apply ((i : ℝ) * cell, total))),
       out0⟩ := by
  induction l with
  | nil => intro M stk cur0 path0 out0; exact ⟨cur0, by simp⟩
  | cons i l ih =>
    intro M stk cur0 path0 out0
    have hflat : ((i :: l).flatMap fun j =>
        [CanvasOp.moveTo ((j : ℝ) * cell) 0, CanvasOp.lineTo ((j : ℝ) * cell) total]) =
        CanvasOp.moveTo ((i : ℝ) * cell) 0 :: CanvasOp.lineTo ((i : ℝ) * cell) total ::
          (l.flatMap fun j =>
            [CanvasOp.moveTo ((j : ℝ) * cell) 0, CanvasOp.lineTo ((j : ℝ) * cell) total]) := rfl
    have h2 : step (step (⟨M, stk, cur0, path0, out0⟩ : CtxState)
        (CanvasOp.moveTo ((i : ℝ) * cell) 0)) (CanvasOp.lineTo ((i : ℝ) * cell) total) =
        ⟨M, stk, some (M.apply ((i : ℝ) * cell, total)),
         path0 ++ [(M.apply ((i : ℝ) * cell, 0), M.apply ((i : ℝ) * cell, total))], out0⟩ := rfl
    rw [hflat, List.foldl_cons, List.foldl_cons, h2]
    obtain ⟨c, hc⟩ := ih M stk (some (M.apply ((i : ℝ) * cell, total)))
      (path0 ++ [(M.apply ((i : ℝ) * cell, 0), M.apply ((i : ℝ) * cell, total))]) out0
    refine ⟨c, ?_⟩
    rw [hc]
    simp [List.append_assoc]

lemma foldl_step_hlines (cell total : ℝ) (l : List ℕ) :
    ∀ (M : Affine) (stk : List Affine) (cur0 : Option (ℝ × ℝ))
      (path0 out0 : List ((ℝ × ℝ) × (ℝ × ℝ))), ∃ c : Option (ℝ × ℝ),
      List.foldl step ⟨M, stk, cur0, path0, out0⟩ (l.flatMap fun i =>
        [CanvasOp.moveTo 0 ((i : ℝ) * cell), CanvasOp.lineTo total ((i : ℝ) * cell)]) =
      ⟨M, stk, c,
       path0 ++ l.map (fun (i : ℕ) => (M.apply (0, (i : ℝ) * cell), M.apply (total, (i : ℝ) * cell))),
       out0⟩ := by
  induction l with
  | nil => intro M stk cur0 path0 out0; exact ⟨cur0, by simp⟩
  | cons i l ih =>
    intro M stk cur0 path0 out0
    have hflat : ((i :: l).flatMap fun j =>
        [CanvasOp.moveTo 0 ((j : ℝ) * cell), CanvasOp.lineTo total ((j : ℝ) * cell)]) =
        CanvasOp.moveTo 0 ((i : ℝ) * cell) :: CanvasOp.lineTo total ((i : ℝ) * cell) ::
          (l.flatMap fun j =>
            [CanvasOp.moveTo 0 ((j : ℝ) * cell), CanvasOp.lineTo total ((j : ℝ) * cell)]) := rfl
    have h2 : step (step (⟨M, stk, cur0, path0, out0⟩ : CtxState)
        (CanvasOp.moveTo 0 ((i : ℝ) * cell))) (CanvasOp.lineTo total ((i : ℝ) * cell)) =
        ⟨M, stk, some (M.apply (total, (i : ℝ) * cell)),
         path0 ++ [(M.apply (0, (i : ℝ) * cell), M.apply (total, (i : ℝ) * cell))], out0⟩ := rfl
    rw [hflat, List.foldl_cons, List.foldl_cons, h2]
    obtain ⟨c, hc⟩ := ih M stk (some (M.apply (total, (i : ℝ) * cell)))
      (path0 ++ [(M.apply (0, (i : ℝ) * cell), M.apply (total, (i : ℝ) * cell))]) out0
    refine ⟨c, ?_⟩
    rw [hc]
    simp [List.append_assoc]

lemma foldl_step_gridBody (M : Affine) (stk : List Affine) (n : ℕ) (cell total : ℝ) :
    (List.foldl step ⟨M, stk, none, [], []⟩
      (((List.range (n + 1)).flatMap fun i =>
          [CanvasOp.moveTo ((i : ℝ) * cell) 0, CanvasOp.lineTo ((i : ℝ) * cell) total]) ++
       (((List.range (n + 1)).flatMap fun i =>
          [CanvasOp.moveTo 0 ((i : ℝ) * cell), CanvasOp.lineTo total ((i : ℝ) * cell)]) ++
        [CanvasOp.stroke, CanvasOp.restore]))).out =
    ((List.range (n + 1)).map fun (i : ℕ) =>
      (M.apply ((i : ℝ) * cell, 0), M.apply ((i : ℝ) * cell, total))) ++
    ((List.range (n + 1)).map fun (i : ℕ) =>
      (M.apply (0, (i : ℝ) * cell), M.apply (total, (i : ℝ) * cell))) := by
  obtain ⟨c1, h1⟩ := foldl_step_vlines cell total (List.range (n + 1)) M stk none [] []
  obtain ⟨c2, h2⟩ := foldl_step_hlines cell total (List.range (n + 1)) M stk c1
    ([] ++ (List.range (n + 1)).map fun (i : ℕ) =>
      (M.apply ((i : ℝ) * cell, 0), M.apply ((i : ℝ) * cell, total))) []
  rw [List.foldl_append, h1, List.foldl_append, h2]
  rw [List.foldl_cons, List.foldl_cons, List.foldl_nil, step_restore_out]
  simp [step]

lemma strokedSegments_drawToOps (cfg : GridConfiguration) (W H : ℝ) :
    strokedSegments (GridRenderer.drawToOps cfg W H) =
    ((List.range (cfg.effectiveN.toNat + 1)).map fun (i : ℕ) =>
      ((specFrame cfg W H).apply ((i : ℝ) * cfg.cellSize, 0),
       (specFrame cfg W H).apply ((i : ℝ) * cfg.cellSize,
         (cfg.effectiveN.toNat : ℝ) * cfg.cellSize))) ++
    ((List.range (cfg.effectiveN.toNat + 1)).map fun (i : ℕ) =>
      ((specFrame cfg W H).apply (0, (i : ℝ) * cfg.cellSize),
       (specFrame cfg W H).apply ((cfg.effectiveN.toNat : ℝ) * cfg.cellSize,
         (i : ℝ) * cfg.cellSize))) := by
  have hhead : List.foldl step CtxState.initial
      [CanvasOp.save,
       CanvasOp.translate (W / 2 + cfg.positionX) (H / 2 + cfg.positionY),
       CanvasOp.rotate (cfg.rotation * Real.pi / 180),
       CanvasOp.translate (-((cfg.effectiveN.toNat : ℝ) * cfg.cellSize / 2))
         (-((cfg.effectiveN.toNat : ℝ) * cfg.cellSize / 2)),
       CanvasOp.strokeStyle cfg.lineColor,
       CanvasOp.lineWidth cfg.lineWidth,
       CanvasOp.globalAlpha cfg.lineOpacity,
       CanvasOp.beginPath] =
      ⟨((Affine.identity.comp
          (Affine.translationBy (W / 2 + cfg.positionX) (H / 2 + cfg.positionY))).comp
          (Affine.rotationBy (cfg.rotation * Real.pi / 180))).comp
          (Affine.translationBy (-((cfg.effectiveN.toNat : ℝ) * cfg.cellSize / 2))
            (-((cfg.effectiveN.toNat : ℝ) * cfg.cellSize / 2))),
       [Affine.identity], none, [], []⟩ := rfl
  show (List.foldl step CtxState.initial
      ((([CanvasOp.save,
          CanvasOp.translate (W / 2 + cfg.positionX) (H / 2 + cfg.positionY),
          CanvasOp.rotate (cfg.rotation * Real.pi / 180),
          CanvasOp.translate (-((cfg.effectiveN.toNat : ℝ) * cfg.cellSize / 2))
            (-((cfg.effectiveN.toNat : ℝ) * cfg.cellSize / 2)),
          CanvasOp.strokeStyle cfg.lineColor,
          CanvasOp.lineWidth cfg.lineWidth,
          CanvasOp.globalAlpha cfg.lineOpacity,
          CanvasOp.beginPath] ++
         ((List.range (cfg.effectiveN.toNat + 1)).flatMap fun i =>
           [CanvasOp.moveTo ((i : ℝ) * cfg.cellSize) 0,
            CanvasOp.lineTo ((i : ℝ) * cfg.cellSize)
              ((cfg.effectiveN.toNat : ℝ) * cfg.cellSize)])) ++
        ((List.range (cfg.effectiveN.toNat + 1)).flatMap fun i =>
          [CanvasOp.moveTo 0 ((i : ℝ) * cfg.cellSize),
           CanvasOp.lineTo ((cfg.effectiveN.toNat : ℝ) * cfg.cellSize)
             ((i : ℝ) * cfg.cellSize)])) ++
       [CanvasOp.stroke, CanvasOp.restore])).out = _
  rw [List.append_assoc, List.append_assoc]
  rw [List.foldl_append, hhead,
    foldl_step_gridBody _ _ (cfg.effectiveN.toNat) cfg.cellSize
      ((cfg.effectiveN.toNat : ℝ) * cfg.cellSize),
    Affine.identity_comp]
  rfl

/-- C3: every setter stores exactly the clamped value (cellSize reads back
as clamp(v, 10, 400); gridN as the rounding of v clamped to 1..128; rotation
as clamp(v, -180, 180); lineWidth as clamp(v, 0.5, 5); lineOpacity as
clamp(v, 0.1, 1)); after any sequence of operations starting from the
initial configuration every clamped field is inside its range; and
effectiveN is always at least 1, including after gridN assignments of 0 or
negative values. -/
theorem C3_setters_clamp_and_ranges_invariant :
    (∀ (c : GridConfiguration) (v : ℝ), (c.setCellSize v).cellSize = max 10 (min 400 v)) ∧
    (∀ (c : GridConfiguration) (v : ℝ), (c.setGridN v).gridN = max 1 (min 128 (round v))) ∧
    (∀ (c : GridConfiguration) (v : ℝ), (c.setRotation v).rotation = max (-180) (min 180 v)) ∧
    (∀ (c : GridConfiguration) (v : ℝ), (c.setLineWidth v).lineWidth = max 0.5 (min 5 v)) ∧
    (∀ (c : GridConfiguration) (v : ℝ), (c.setLineOpacity v).lineOpacity = max 0.1 (min 1 v)) ∧
    (∀ ops : List ConfigOp,
      GridConfiguration.Inv (ops.foldl GridConfiguration.applyOp GridConfiguration.initial)) ∧
    (∀ (c : GridConfiguration) (v : ℝ), 1 ≤ (c.setGridN v).effectiveN) ∧
    (∀ c : GridConfiguration, 1 ≤ c.effectiveN) := by
  refine ⟨fun c v => rfl, fun c v => rfl, fun c v => rfl, fun c v => rfl, fun c v => rfl,
    ?_, fun c v => le_max_left _ _, fun c => le_max_left _ _⟩
  intro ops
  have main : ∀ (l : List ConfigOp) (c : GridConfiguration), GridConfiguration.Inv c →
      GridConfiguration.Inv (l.foldl GridConfiguration.applyOp c) := by
    intro l
    induction l with
    | nil => intro c h; exact h
    | cons op rest ih =>
      intro c h
      exact ih _ (GridConfiguration.Inv_applyOp c op h)
  exact main ops GridConfiguration.initial GridConfiguration.Inv_initial

/-- C10: every position-only operation touches only the position fields:
the positionX and positionY setters, each drag-move event, and centerGrid
leave gridN, cellSize, rotation, lineColor, lineWidth and lineOpacity
exactly unchanged; centerGrid additionally sets both position fields to 0
and notifies exactly once. -/
theorem C10_position_ops_touch_only_position :
    (∀ (g : GestureState) (c : GridConfiguration) (e : PointerEvent),
      (Gestures.onPointerMove g c e).gridN = c.gridN ∧
      (Gestures.onPointerMove g c e).cellSize = c.cellSize ∧
      (Gestures.onPointerMove g c e).rotation = c.rotation ∧
      (Gestures.onPointerMove g c e).lineColor = c.lineColor ∧
      (Gestures.onPointerMove g c e).lineWidth = c.lineWidth ∧
      (Gestures.onPointerMove g c e).lineOpacity = c.lineOpacity) ∧
    (∀ (c : GridConfiguration) (v : ℝ),
      (c.setPositionX v).gridN = c.gridN ∧ (c.setPositionX v).cellSize = c.cellSize ∧
      (c.setPositionX v).rotation = c.rotation ∧ (c.setPositionX v).lineColor = c.lineColor ∧
      (c.setPositionX v).lineWidth = c.lineWidth ∧ (c.setPositionX v).lineOpacity = c.lineOpacity ∧
      (c.setPositionX v).positionY = c.positionY) ∧
    (∀ (c : GridConfiguration) (v : ℝ),
      (c.setPositionY v).gridN = c.gridN ∧ (c.setPositionY v).cellSize = c.cellSize ∧
      (c.setPositionY v).rotation = c.rotation ∧ (c.setPositionY v).lineColor = c.lineColor ∧
      (c.setPositionY v).lineWidth = c.lineWidth ∧ (c.setPositionY v).lineOpacity = c.lineOpacity ∧
      (c.setPositionY v).positionX = c.positionX) ∧
    (∀ c : GridConfiguration,
      c.centerGrid.positionX = 0 ∧ c.centerGrid.positionY = 0 ∧
      c.centerGrid.gridN = c.gridN ∧ c.centerGrid.cellSize = c.cellSize ∧
      c.centerGrid.rotation = c.rotation ∧ c.centerGrid.lineColor = c.lineColor ∧
      c.centerGrid.lineWidth = c.lineWidth ∧ c.centerGrid.lineOpacity = c.lineOpacity ∧
      c.centerGrid.notifications = c.notifications + 1) := by
  refine ⟨?_, fun c v => ⟨rfl, rfl, rfl, rfl, rfl, rfl, rfl⟩,
    fun c v => ⟨rfl, rfl, rfl, rfl, rfl, rfl, rfl⟩,
    fun c => ⟨rfl, rfl, rfl, rfl, rfl, rfl, rfl, rfl, rfl⟩⟩
  intro g c e
  unfold Gestures.onPointerMove
  split
  · exact ⟨rfl, rfl, rfl, rfl, rfl, rfl⟩
  · exact ⟨rfl, rfl, rfl, rfl, rfl, rfl⟩

/-- C4: a drag anchored at configuration position (px0, py0) with
pointer-down at (cx0, cy0), after any sequence of intermediate move events
and a final move at (cx1, cy1), leaves the position at exactly
(px0 + (cx1 - cx0), py0 + (cy1 - cy0)), independent of the intermediate
moves: assignment is absolute from the anchor, so there is no drift from
incremental accumulation. -/
theorem C4_drag_absolute_from_anchor (g : GestureState) (c0 : GridConfiguration)
    (e0 : PointerEvent) (moves : List PointerEvent) (e1 : PointerEvent)
    (h : e0.pointerType ≠ "touch") :
    (Gestures.onPointerMove (Gestures.onPointerDown g c0 e0)
        (moves.foldl (Gestures.onPointerMove (Gestures.onPointerDown g c0 e0)) c0)
        e1).positionX = c0.positionX + (e1.clientX - e0.clientX) ∧
    (Gestures.onPointerMove (Gestures.onPointerDown g c0 e0)
        (moves.foldl (Gestures.onPointerMove (Gestures.onPointerDown g c0 e0)) c0)
        e1).positionY = c0.positionY + (e1.clientY - e0.clientY) := by
  have hg : Gestures.onPointerDown g c0 e0 =
      { g with dragging := true, dragStartX := e0.clientX, dragStartY := e0.clientY,
               configStartX := c0.positionX, configStartY := c0.positionY } := by
    unfold Gestures.onPointerDown
    rw [if_neg h]
  rw [hg]
  constructor <;>
    simp [Gestures.onPointerMove, GridConfiguration.setPositionX,
      GridConfiguration.setPositionY, GridConfiguration.notify]

/-- Witness for C4 at a concrete drag: anchor pointer (10, 20) on the
initial configuration, one intermediate move to (500, 500), final move to
(13, 27); the position lands at (3, 7). -/
theorem C4_drag_absolute_from_anchor_witness :
    (Gestures.onPointerMove
        (Gestures.onPointerDown GestureState.initial GridConfiguration.initial
          ⟨"mouse", 10, 20⟩)
        ([(⟨"mouse", 500, 500⟩ : PointerEvent)].foldl
          (Gestures.onPointerMove
            (Gestures.onPointerDown GestureState.initial GridConfiguration.initial
              ⟨"mouse", 10, 20⟩))
          GridConfiguration.initial)
        ⟨"mouse", 13, 27⟩).positionX = 3 ∧
    (Gestures.onPointerMove
        (Gestures.onPointerDown GestureState.initial GridConfiguration.initial
          ⟨"mouse", 10, 20⟩)
        ([(⟨"mouse", 500, 500⟩ : PointerEvent)].foldl
          (Gestures.onPointerMove
            (Gestures.onPointerDown GestureState.initial GridConfiguration.initial
              ⟨"mouse", 10, 20⟩))
          GridConfiguration.initial)
        ⟨"mouse", 13, 27⟩).positionY = 7 := by
  have h := C4_drag_absolute_from_anchor GestureState.initial GridConfiguration.initial
    ⟨"mouse", 10, 20⟩ [⟨"mouse", 500, 500⟩] ⟨"mouse", 13, 27⟩ (by decide)
  constructor
  · rw [h.1]; norm_num [GridConfiguration.initial]
  · rw [h.2]; norm_num [GridConfiguration.initial]

/-- C5: a touch move during an anchored two-touch gesture with initial
distance D0 positive, initial cellSize S0, initial angle A0 and initial
rotation R0, in which both anchored contacts are found at distance D1 and
angle A1, sets cellSize to clamp(S0 * D1 / D0, 10, 400) and rotation to
clamp(R0 + (A1 - A0) * 180 / pi, -180, 180); in particular applying a
gesture delta of +20 degrees to rotation 170 yields 180, not 190. -/
theorem C5_pinch_and_rotate_formula (g : GestureState) (c : GridConfiguration)
    (touches : List Touch) (t0 t1 : Touch)
    (hlen : touches.length = 2)
    (h0 : findTouch touches g.touchIds[0]? = some t0)
    (h1 : findTouch touches g.touchIds[1]? = some t1)
    (hD : 0 < g.initialPinchDist) :
    (Gestures.onTouchMove g c touches).cellSize =
      max 10 (min 400 (g.initialCellSize * (Gestures.dist t0 t1 / g.initialPinchDist))) ∧
    (Gestures.onTouchMove g c touches).rotation =
      max (-180) (min 180
        (g.initialRotation + (Gestures.angle t0 t1 - g.initialAngle) * (180 / Real.pi))) ∧
    (∀ cx : GridConfiguration, (cx.setRotation (170 + 20)).rotation = 180) := by
  have hne : ¬ touches.length ≠ 2 := by omega
  have hmove : Gestures.onTouchMove g c touches =
      (c.setCellSize (g.initialCellSize * (Gestures.dist t0 t1 / g.initialPinchDist))).setRotation
        (g.initialRotation + (Gestures.angle t0 t1 - g.initialAngle) * (180 / Real.pi)) := by
    simp only [Gestures.onTouchMove, if_neg hne, h0, h1, if_pos hD]
  refine ⟨by rw [hmove]; rfl, by rw [hmove]; rfl, ?_⟩
  intro cx
  show max (-180 : ℝ) (min 180 (170 + 20)) = 180
  norm_num

/-- Witness for C5 at a concrete gesture: anchored contacts 1 at (0, 0) and
2 at (100, 0) with the anchored distance, angle taken at the same contacts,
initial cellSize 60 and initial rotation 170; a move finding the contacts
at the same places leaves cellSize at 60 and rotation at 170. -/
theorem C5_pinch_and_rotate_formula_witness :
    (Gestures.onTouchMove
        { dragging := false, dragStartX := 0, dragStartY := 0, configStartX := 0,
          configStartY := 0, touchIds := [1, 2],
          initialPinchDist := Gestures.dist ⟨1, 0, 0⟩ ⟨2, 100, 0⟩,
          initialCellSize := 60,
          initialAngle := Gestures.angle ⟨1, 0, 0⟩ ⟨2, 100, 0⟩,
          initialRotation := 170 }
        GridConfiguration.initial [⟨1, 0, 0⟩, ⟨2, 100, 0⟩]).cellSize = 60 ∧
    (Gestures.onTouchMove
        { dragging := false, dragStartX := 0, dragStartY := 0, configStartX := 0,
          configStartY := 0, touchIds := [1, 2],
          initialPinchDist := Gestures.dist ⟨1, 0, 0⟩ ⟨2, 100, 0⟩,
          initialCellSize := 60,
          initialAngle := Gestures.angle ⟨1, 0, 0⟩ ⟨2, 100, 0⟩,
          initialRotation := 170 }
        GridConfiguration.initial [⟨1, 0, 0⟩, ⟨2, 100, 0⟩]).rotation = 170 := by
  have hD : (0 : ℝ) < Gestures.dist ⟨1, 0, 0⟩ ⟨2, 100, 0⟩ := by
    show (0 : ℝ) < Real.sqrt ((0 - 100) * (0 - 100) + (0 - 0) * (0 - 0))
    exact Real.sqrt_pos.mpr (by norm_num)
  have h := C5_pinch_and_rotate_formula
    { dragging := false, dragStartX := 0, dragStartY := 0, configStartX := 0,
      configStartY := 0, touchIds := [1, 2],
      initialPinchDist := Gestures.dist ⟨1, 0, 0⟩ ⟨2, 100, 0⟩,
      initialCellSize := 60,
      initialAngle := Gestures.angle ⟨1, 0, 0⟩ ⟨2, 100, 0⟩,
      initialRotation := 170 }
    GridConfiguration.initial [⟨1, 0, 0⟩, ⟨2, 100, 0⟩] ⟨1, 0, 0⟩ ⟨2, 100, 0⟩
    rfl rfl rfl hD
  constructor
  · rw [h.1, div_self (ne_of_gt hD)]; norm_num
  · rw [h.2.1, sub_self]; norm_num

/-- C6: a touch move during a two-touch gesture in which at least one of
the two anchored identifiers is no longer present among the event contacts
leaves the configuration completely unchanged (no partial update), and the
handler is a total function, so no error is raised. -/
theorem C6_lost_contact_ignores_move (g : GestureState) (c : GridConfiguration)
    (touches : List Touch) (a b : ℤ)
    (hids : g.touchIds = [a, b])
    (habs : touches.find? (fun t => t.identifier == a) = none ∨
      touches.find? (fun t => t.identifier == b) = none) :
    Gestures.onTouchMove g c touches = c := by
  unfold Gestures.onTouchMove
  split
  · rfl
  · have e0 : g.touchIds[0]? = some a := by rw [hids]; rfl
    have e1 : g.touchIds[1]? = some b := by rw [hids]; rfl
    rw [e0, e1]
    show (match findTouch touches (some a), findTouch touches (some b) with
      | some t0, some t1 =>
        (if 0 < g.initialPinchDist then
          c.setCellSize (g.initialCellSize * (Gestures.dist t0 t1 / g.initialPinchDist))
        else c).setRotation
          (g.initialRotation + (Gestures.angle t0 t1 - g.initialAngle) * (180 / Real.pi))
      | _, _ => c) = c
    have ha : findTouch touches (some a) = touches.find? (fun t => t.identifier == a) := rfl
    have hb : findTouch touches (some b) = touches.find? (fun t => t.identifier == b) := rfl
    rw [ha, hb]
    rcases habs with hx | hx
    · rw [hx]
    · rw [hx]
      cases hfa : touches.find? (fun t => t.identifier == a) <;> rfl

/-- Witness for C6: anchored identifiers 1 and 2; the move event carries
contacts 3 and 2 only, so identifier 1 is gone and the initial
configuration is returned unchanged. -/
theorem C6_lost_contact_ignores_move_witness :
    Gestures.onTouchMove { GestureState.initial with touchIds := [1, 2] }
      GridConfiguration.initial [⟨3, 5, 5⟩, ⟨2, 9, 9⟩] = GridConfiguration.initial := by
  exact C6_lost_contact_ignores_move _ _ _ 1 2 rfl (Or.inl rfl)

/-- C8: a batch update whose entries are all writable configuration fields
produces exactly the configuration obtained by applying the corresponding
individual setter for each entry in turn (so clamping is never bypassed),
throws nothing, and fires one change notification per applied field rather
than a single coalesced notification. -/
theorem C8_update_equals_sequential_setters (c : GridConfiguration)
    (props : List FieldAssign) (h : ∀ a ∈ props, a.isField = true) :
    (c.update props).1 = props.foldl GridConfiguration.applySetter c ∧
    (c.update props).2 = false ∧
    (c.update props).1.notifications = c.notifications + props.length :=
  GridConfiguration.update_fields_spec props c h

/-- Witness for C8: batch-updating gridN to 200 and cellSize to 1000 on the
initial configuration throws nothing, fires two notifications, matches the
sequential setters, and both values land clamped (128 and 400). -/
theorem C8_update_equals_sequential_setters_witness :
    (GridConfiguration.initial.update
      [FieldAssign.gridN 200, FieldAssign.cellSize 1000]).2 = false ∧
    (GridConfiguration.initial.update
      [FieldAssign.gridN 200, FieldAssign.cellSize 1000]).1.notifications = 2 ∧
    (GridConfiguration.initial.update
      [FieldAssign.gridN 200, FieldAssign.cellSize 1000]).1 =
      [FieldAssign.gridN 200, FieldAssign.cellSize 1000].foldl
        GridConfiguration.applySetter GridConfiguration.initial ∧
    (GridConfiguration.initial.update
      [FieldAssign.gridN 200, FieldAssign.cellSize 1000]).1.gridN = 128 ∧
    (GridConfiguration.initial.update
      [FieldAssign.gridN 200, FieldAssign.cellSize 1000]).1.cellSize = 400 := by
  have h := C8_update_equals_sequential_setters GridConfiguration.initial
    [FieldAssign.gridN 200, FieldAssign.cellSize 1000]
    (by intro a ha; fin_cases ha <;> rfl)
  refine ⟨h.2.1, by simpa using h.2.2, h.1, ?_, ?_⟩
  · rw [h.1]
    show max 1 (min 128 (round (200 : ℝ))) = 128
    norm_num
  · rw [h.1]
    show max 10 (min 400 (1000 : ℝ)) = 400
    norm_num

/-- Counterexample for C7: the touch sequence two contacts, then a third
contact, then lifting the third (a transition from three contacts into
exactly two) does not capture fresh anchors at that transition: the handler
for the contact-lift clears the anchored identifiers instead of re-anchoring
to the two remaining contacts 1 and 2. -/
theorem C7_counterexample :
    (runTouch (GestureState.initial, GridConfiguration.initial)
      [TouchEv.start [⟨1, 0, 0⟩, ⟨2, 100, 0⟩],
       TouchEv.start [⟨1, 0, 0⟩, ⟨2, 100, 0⟩, ⟨3, 50, 50⟩],
       TouchEv.stop [⟨1, 0, 0⟩, ⟨2, 200, 0⟩]]).1.touchIds = [] ∧
    (runTouch (GestureState.initial, GridConfiguration.initial)
      [TouchEv.start [⟨1, 0, 0⟩, ⟨2, 100, 0⟩],
       TouchEv.start [⟨1, 0, 0⟩, ⟨2, 100, 0⟩, ⟨3, 50, 50⟩],
       TouchEv.stop [⟨1, 0, 0⟩, ⟨2, 200, 0⟩]]).1.touchIds ≠ [1, 2] := by
  have h : (runTouch (GestureState.initial, GridConfiguration.initial)
      [TouchEv.start [⟨1, 0, 0⟩, ⟨2, 100, 0⟩],
       TouchEv.start [⟨1, 0, 0⟩, ⟨2, 100, 0⟩, ⟨3, 50, 50⟩],
       TouchEv.stop [⟨1, 0, 0⟩, ⟨2, 200, 0⟩]]).1.touchIds = [] := rfl
  exact ⟨h, by rw [h]; simp⟩

/-- C7 as amended: a touch-start event with exactly two contacts captures
fresh anchors (both identifiers, distance, angle, current cellSize and
rotation), overwriting any stale ones; any touch-end clears the anchored
identifiers; with cleared identifiers every touch move leaves the
configuration unchanged; hence after a transition into two contacts from
more (which arrives as a touch-end), stale anchors are never reused by move
events - moves are ignored until a new two-contact touch-start re-anchors. -/
theorem C7_amended_reanchor_on_touchstart_only :
    (∀ (g : GestureState) (c : GridConfiguration) (t0 t1 : Touch),
      Gestures.onTouchStart g c [t0, t1] =
        { g with touchIds := [t0.identifier, t1.identifier],
                 initialPinchDist := Gestures.dist t0 t1,
                 initialCellSize := c.cellSize,
                 initialAngle := Gestures.angle t0 t1,
                 initialRotation := c.rotation }) ∧
    (∀ g : GestureState, (Gestures.onTouchEnd g).touchIds = []) ∧
    (∀ (g : GestureState) (c : GridConfiguration) (ts : List Touch),
      g.touchIds = [] → Gestures.onTouchMove g c ts = c) ∧
    (∀ (g : GestureState) (c : GridConfiguration) (ts : List Touch),
      Gestures.onTouchMove (Gestures.onTouchEnd g) c ts = c) := by
  have hmove : ∀ (g : GestureState) (c : GridConfiguration) (ts : List Touch),
      g.touchIds = [] → Gestures.onTouchMove g c ts = c := by
    intro g c ts hids
    unfold Gestures.onTouchMove
    split
    · rfl
    · have e0 : g.touchIds[0]? = none := by rw [hids]; rfl
      have e1 : g.touchIds[1]? = none := by rw [hids]; rfl
      rw [e0, e1]
      rfl
  exact ⟨fun g c t0 t1 => rfl, fun g => rfl, hmove,
    fun g c ts => hmove (Gestures.onTouchEnd g) c ts rfl⟩

/-- Witness for C7 as amended: after a touch-end, a move event finding two
contacts leaves the initial configuration unchanged. -/
theorem C7_amended_reanchor_on_touchstart_only_witness :
    Gestures.onTouchMove (Gestures.onTouchEnd GestureState.initial)
      GridConfiguration.initial [⟨1, 0, 0⟩, ⟨2, 100, 0⟩] = GridConfiguration.initial := by
  exact C7_amended_reanchor_on_touchstart_only.2.2.1
    (Gestures.onTouchEnd GestureState.initial) GridConfiguration.initial
    [⟨1, 0, 0⟩, ⟨2, 100, 0⟩] rfl

/-- C1: the grid geometry is a pure function of target dimensions and
configuration: drawTo emits the identical command suffix on any two target
contexts (it reads nothing from the context), and the live render path (the
private draw method, invoked at the canvas client dimensions) emits exactly
a clearRect followed by the drawTo sequence, so its stroke geometry is
identical to drawTo at those dimensions and live preview and snapshot
export are pixel-coincident. -/
theorem C1_dual_target_geometry_parity :
    ∀ (cfg : GridConfiguration) (w h : ℝ) (ctx1 ctx2 : List CanvasOp),
      (GridRenderer.drawTo ctx1 cfg w h).drop ctx1.length =
        (GridRenderer.drawTo ctx2 cfg w h).drop ctx2.length ∧
      GridRenderer.drawOps cfg w h =
        CanvasOp.clearRect 0 0 w h :: GridRenderer.drawToOps cfg w h ∧
      strokedSegments (GridRenderer.drawOps cfg w h) =
        strokedSegments (GridRenderer.drawToOps cfg w h) := by
  intro cfg w h ctx1 ctx2
  refine ⟨?_, rfl, rfl⟩
  show (ctx1 ++ GridRenderer.drawToOps cfg w h).drop ctx1.length =
    (ctx2 ++ GridRenderer.drawToOps cfg w h).drop ctx2.length
  rw [List.drop_left, List.drop_left]

/-- C2: for every configuration and target, drawTo strokes exactly
effectiveN + 1 vertical and effectiveN + 1 horizontal segments, spaced
cellSize apart starting at 0 and spanning effectiveN times cellSize, mapped
through the frame that translates to (W/2 + positionX, H/2 + positionY),
rotates by rotation times pi over 180, then translates by minus half the
grid span in each axis; in particular with the initial configuration
(gridN 4, cellSize 60, rotation 0, position 0) on a 300 by 300 target the
five vertical and five horizontal lines span the square from (30, 30) to
(270, 270). -/
theorem C2_grid_lines_and_scenario :
    (∀ (cfg : GridConfiguration) (W H : ℝ),
      strokedSegments (GridRenderer.drawToOps cfg W H) =
      ((List.range (cfg.effectiveN.toNat + 1)).map fun (i : ℕ) =>
        ((specFrame cfg W H).apply ((i : ℝ) * cfg.cellSize, 0),
         (specFrame cfg W H).apply ((i : ℝ) * cfg.cellSize,
           (cfg.effectiveN.toNat : ℝ) * cfg.cellSize))) ++
      ((List.range (cfg.effectiveN.toNat + 1)).map fun (i : ℕ) =>
        ((specFrame cfg W H).apply (0, (i : ℝ) * cfg.cellSize),
         (specFrame cfg W H).apply ((cfg.effectiveN.toNat : ℝ) * cfg.cellSize,
           (i : ℝ) * cfg.cellSize)))) ∧
    (∀ (cfg : GridConfiguration) (W H : ℝ),
      (strokedSegments (GridRenderer.drawToOps cfg W H)).length =
        2 * (cfg.effectiveN.toNat + 1)) ∧
    strokedSegments (GridRenderer.drawToOps GridConfiguration.initial 300 300) =
      [((30, 30), (30, 270)), ((90, 30), (90, 270)), ((150, 30), (150, 270)),
       ((210, 30), (210, 270)), ((270, 30), (270, 270)),
       ((30, 30), (270, 30)), ((30, 90), (270, 90)), ((30, 150), (270, 150)),
       ((30, 210), (270, 210)), ((30, 270), (270, 270))] := by
  refine ⟨strokedSegments_drawToOps, ?_, ?_⟩
  · intro cfg W H
    rw [strokedSegments_drawToOps, List.length_append, List.length_map, List.length_map,
      List.length_range]
    omega
  · rw [strokedSegments_drawToOps]
    rw [show GridConfiguration.initial.effectiveN.toNat = 4 from rfl]
    rw [show List.range (4 + 1) = [0, 1, 2, 3, 4] from rfl]
    simp only [specFrame, Affine.comp, Affine.apply, Affine.translationBy, Affine.rotationBy,
      show GridConfiguration.initial.effectiveN.toNat = 4 from rfl,
      show GridConfiguration.initial.rotation = 0 from rfl,
      show GridConfiguration.initial.positionX = 0 from rfl,
      show GridConfiguration.initial.positionY = 0 from rfl,
      show GridConfiguration.initial.cellSize = 60 from rfl,
      zero_mul, zero_div, Real.cos_zero, Real.sin_zero, neg_zero, List.map_cons, List.map_nil]
    norm_num

/-- C9: no operation of the core raises an error: every numeric setter
clamps its argument into range rather than rejecting it, a batch update
over the configuration fields never throws, and rendering into a degenerate
zero-sized target still produces the well-formed (entirely off-canvas)
stroke list of 2 times (effectiveN + 1) segments rather than an error. -/
theorem C9_no_operation_raises :
    (∀ (c : GridConfiguration) (props : List FieldAssign),
      (∀ a ∈ props, a.isField = true) → (c.update props).2 = false) ∧
    (∀ (c : GridConfiguration) (v : ℝ),
      10 ≤ (c.setCellSize v).cellSize ∧ (c.setCellSize v).cellSize ≤ 400) ∧
    (∀ (c : GridConfiguration) (v : ℝ),
      1 ≤ (c.setGridN v).gridN ∧ (c.setGridN v).gridN ≤ 128) ∧
    (∀ (c : GridConfiguration) (v : ℝ),
      -180 ≤ (c.setRotation v).rotation ∧ (c.setRotation v).rotation ≤ 180) ∧
    (∀ (c : GridConfiguration) (v : ℝ),
      0.5 ≤ (c.setLineWidth v).lineWidth ∧ (c.setLineWidth v).lineWidth ≤ 5) ∧
    (∀ (c : GridConfiguration) (v : ℝ),
      0.1 ≤ (c.setLineOpacity v).lineOpacity ∧ (c.setLineOpacity v).lineOpacity ≤ 1) ∧
    (∀ cfg : GridConfiguration,
      (strokedSegments (GridRenderer.drawToOps cfg 0 0)).length =
        2 * (cfg.effectiveN.toNat + 1)) := by
  refine ⟨fun c props h => (GridConfiguration.update_fields_spec props c h).2.1,
    fun c v => ⟨le_max_left _ _, max_le (by norm_num) (min_le_left _ _)⟩,
    fun c v => ⟨le_max_left _ _, max_le (by norm_num) (min_le_left _ _)⟩,
    fun c v => ⟨le_max_left _ _, max_le (by norm_num) (min_le_left _ _)⟩,
    fun c v => ⟨le_max_left _ _, max_le (by norm_num) (min_le_left _ _)⟩,
    fun c v => ⟨le_max_left _ _, max_le (by norm_num) (min_le_left _ _)⟩,
    ?_⟩
  intro cfg
  rw [strokedSegments_drawToOps, List.length_append, List.length_map, List.length_map,
    List.length_range]
  omega

/-- Witness for C9: batch-updating lineWidth to 99 on the initial
configuration does not throw, and rendering the initial configuration into
a 0 by 0 target produces the 10-segment stroke list. -/
theorem C9_no_operation_raises_witness :
    (GridConfiguration.initial.update [FieldAssign.lineWidth 99]).2 = false ∧
    (strokedSegments (GridRenderer.drawToOps GridConfiguration.initial 0 0)).length = 10 := by
  refine ⟨C9_no_operation_raises.1 GridConfiguration.initial [FieldAssign.lineWidth 99] ?_, ?_⟩
  · intro a ha
    fin_cases ha
    rfl
  · rw [C9_no_operation_raises.2.2.2.2.2.2 GridConfiguration.initial]
    rfl

end
